import Mathlib

/-!
Verification development for the conversation orchestration engine of the
nono-labs-service repository.

The TypeScript sources are shallowly embedded as executable Lean
definitions.  Asynchronous calls to external collaborators (the LLM
backend, MCP tool servers, the Telegram transport, the Mongo persistence
layer) are modelled by explicit environment records holding the outcome of
each call; a thrown JS exception is modelled by `Except.error` carrying the
error message; persistence side effects are recorded as an explicit
operation trace that can be replayed onto a store.  JS truthiness of the
optional values used by the sources (`x || y`, `if (s)`, `if (arr && arr.length)`)
is modelled by the `jsOr*` helpers below.
-/

/-- JS `a || b` for two optional object-valued operands: the first if present,
else the second. -/
def jsOrOpt {α : Type} (a b : Option α) : Option α :=
  match a with
  | some x => some x
  | none => b

/-- JS truthiness of an optional string: `undefined`/`null` and the empty
string are falsy. -/
def truthyStr (a : Option String) : Option String :=
  match a with
  | some s => if s = "" then none else some s
  | none => none

/-- JS `s || d` for an optional string with a string default. -/
def jsOrStr (a : Option String) (d : String) : String :=
  match truthyStr a with
  | some s => s
  | none => d

/-- JS `n || d` for an optional number: `undefined` and `0` are falsy. -/
def jsOrNat (a : Option Nat) (d : Nat) : Nat :=
  match a with
  | some n => if n = 0 then d else n
  | none => d

/-- The `charsLeadWith hay needle`: the list `hay` starts with `needle`. -/
def charsLeadWith : List Char → List Char → Bool
  | _, [] => true
  | [], _ :: _ => false
  | a :: as, b :: bs => a == b && charsLeadWith as bs

/-- Occurrence test behind JS `hay.includes(needle)`. -/
def charsInclude (needle : List Char) : List Char → Bool
  | [] => charsLeadWith [] needle
  | a :: t => charsLeadWith (a :: t) needle || charsInclude needle t

/-- JS `hay.includes(needle)`. -/
def strIncludes (hay needle : String) : Bool :=
  charsInclude needle.toList hay.toList

/-- JS `s.startsWith(lead)`. -/
def strLeadsWith (s lead : String) : Bool :=
  charsLeadWith s.toList lead.toList

/-- Minimal JSON value model (for `JSON.parse` results and tool payloads). -/
inductive Json where
  | null
  | bool (b : Bool)
  | num (n : Int)
  | str (s : String)
  | arr (elems : List Json)
  | obj (fields : List (String × Json))

/- Serialization used for `JSON.stringify(toolResult)` when a tool result is
folded into a `tool` turn.  String escaping is elided: the orchestration code
never inspects the serialized text, it only forwards it. -/
mutual
def stringify : Json → String
  | .null => "null"
  | .bool true => "true"
  | .bool false => "false"
  | .num n => toString n
  | .str s => "\"" ++ s ++ "\""
  | .arr elems => "[" ++ stringifyElems elems ++ "]"
  | .obj fields => "\x7b" ++ stringifyFields fields ++ "\x7d"

def stringifyElems : List Json → String
  | [] => ""
  | [x] => stringify x
  | x :: y :: rest => stringify x ++ "," ++ stringifyElems (y :: rest)

def stringifyFields : List (String × Json) → String
  | [] => ""
  | [(k, v)] => "\"" ++ k ++ "\":" ++ stringify v
  | (k, v) :: y :: rest =>
      "\"" ++ k ++ "\":" ++ stringify v ++ "," ++ stringifyFields (y :: rest)
end

/-! ## MCP adapter (src/src/modules/openai/mcp-adapter.service.ts) -/

/-- Transient tool invocation decoded from an OpenAI tool call
(`MCPToolInvocation` in mcp-adapter.service.ts). -/
structure MCPToolInvocation where
  serverName : String
  toolName : String
  arguments : Json

/-- The `isMCPToolCall` from mcp-adapter.service.ts:
`toolCallName.startsWith` applied to `mcp_`. -/
def isMCPToolCall (toolCallName : String) : Bool :=
  strLeadsWith toolCallName "mcp_"

/-- The name decoder inside `extractMCPInvocation`: the JS regex match
`toolCallName.match(/^mcp_([^_]+)_(.+)$/)`.  The greedy `[^_]+` group stops at
the first underscore; both groups must be non-empty. -/
def splitMCPChars : List Char → Option (List Char × List Char)
  | 'm' :: 'c' :: 'p' :: '_' :: rest =>
    let srv := rest.takeWhile (fun c => c != '_')
    if srv.isEmpty then none
    else
      match rest.dropWhile (fun c => c != '_') with
      | '_' :: t :: ts => some (srv, t :: ts)
      | _ => none
  | _ => none

/-- The `extractMCPInvocation(toolCallName, toolCallArguments)` from
mcp-adapter.service.ts.  A non-matching name yields `ok none` (not an MCP
tool call); arguments that fail `JSON.parse` raise
`Invalid JSON in tool call arguments`.  `parseJson` abstracts the platform
`JSON.parse` (success = `some`). -/
def extractMCPInvocation (parseJson : String → Option Json)
    (toolCallName toolCallArguments : String) :
    Except String (Option MCPToolInvocation) :=
  match splitMCPChars toolCallName.toList with
  | none => .ok none
  | some (srv, tool) =>
    match parseJson toolCallArguments with
    | some j => .ok (some { serverName := ⟨srv⟩, toolName := ⟨tool⟩, arguments := j })
    | none => .error "Invalid JSON in tool call arguments"

/-! ## OpenAI completion service (src/src/modules/openai/openai.service.ts) -/

/-- The `function` part of a raw tool-call record. -/
structure ToolCallFn where
  name : String
  arguments : String
deriving DecidableEq

/-- A raw tool-call record as returned by the backend
(`tool_calls` entries; `tcType` embeds the source field `type`). -/
structure ToolCallRec where
  id : String
  tcType : String
  function : ToolCallFn
deriving DecidableEq

/-- One entry of the message list sent to the backend (`OpenAIMessage` in
openai.service.ts), discriminated by `role`. -/
inductive OpenAIMessage where
  | system (content : String)
  | user (content : String)
  | assistant (content : Option String) (tool_calls : Option (List ToolCallRec))
  | tool (tool_call_id : String) (name : String) (content : String)
deriving DecidableEq

/-- Token usage block of a backend completion. -/
structure CompletionUsage where
  prompt_tokens : Nat
  completion_tokens : Nat
  total_tokens : Nat
deriving DecidableEq

/-- The `choices[0].message` of a backend completion. -/
structure CompletionMessage where
  content : Option String
  tool_calls : Option (List ToolCallRec)
deriving DecidableEq

/-- The `choices[0]` of a backend completion.  The source always reads
`completion.choices[0]`, so the model carries that single choice. -/
structure CompletionChoice where
  message : CompletionMessage
  finish_reason : Option String
deriving DecidableEq

/-- A backend completion (`client.chat.completions.create` result). -/
structure ChatCompletion where
  choice0 : CompletionChoice
  model : String
  usage : Option CompletionUsage
deriving DecidableEq

/-- The `ChatCompletionResponse` from ai-provider.interface.ts. -/
structure ChatCompletionMsg where
  content : Option String
  toolCalls : Option (List ToolCallRec)
deriving DecidableEq

structure ChatCompletionTokens where
  prompt : Nat
  completion : Nat
  total : Nat
deriving DecidableEq

structure ChatCompletionResponse where
  message : ChatCompletionMsg
  finishReason : String
  model : String
  tokens : ChatCompletionTokens
deriving DecidableEq

/-- External world of the tool adapter: the platform `JSON.parse` and the MCP
client `callTool` method (an external tool server call, which may throw). -/
structure MCPEnv where
  parseJson : String → Option Json
  callTool : String → String → Json → Except String Json

/-- The `executeMCPInvocation` from mcp-adapter.service.ts: dispatches to
`mcpClientService.callTool`; its `catch` block logs and rethrows, so a
failure propagates to the caller. -/
def executeMCPInvocation (env : MCPEnv) (invocation : MCPToolInvocation) :
    Except String Json :=
  env.callTool invocation.serverName invocation.toolName invocation.arguments

/-- The error payload returned by `handleToolCall` for a tool that is not a
decodable MCP tool: `{ error: `Tool ${toolName} not found` }`. -/
def unknownToolResult (toolName : String) : Json :=
  .obj [("error", .str ("Tool " ++ toolName ++ " not found"))]

/-- The `handleToolCall(toolName, toolArguments)` from openai.service.ts.  An MCP
tool call is decoded and executed (errors from decoding or execution
propagate); anything else falls through to the unknown-tool error payload. -/
def handleToolCall (env : MCPEnv) (toolName toolArguments : String) :
    Except String Json :=
  if isMCPToolCall toolName then
    match extractMCPInvocation env.parseJson toolName toolArguments with
    | .error e => .error e
    | .ok (some invocation) => executeMCPInvocation env invocation
    | .ok none => .ok (unknownToolResult toolName)
  else .ok (unknownToolResult toolName)

/-- The sequential `for (const toolCall of toolCalls)` loop of
`generateChatCompletion`: executes each call in array order and builds the
`tool` turns; the first thrown error aborts the loop. -/
def runToolCalls (env : MCPEnv) : List ToolCallRec → Except String (List OpenAIMessage)
  | [] => .ok []
  | tc :: rest =>
    match handleToolCall env tc.function.name tc.function.arguments with
    | .error e => .error e
    | .ok toolResult =>
      match runToolCalls env rest with
      | .error e => .error e
      | .ok msgs => .ok (.tool tc.id tc.function.name (stringify toolResult) :: msgs)

/-- Identity-shaped reconstruction of a tool-call record done in the no-tools
return branch of `generateChatCompletion` (`toolCalls.map(tc => ...)`). -/
def cloneToolCall (tc : ToolCallRec) : ToolCallRec :=
  { id := tc.id
    tcType := tc.tcType
    function := { name := tc.function.name, arguments := tc.function.arguments } }

/-- The `generateChatCompletion` from openai.service.ts, modelled from the point
where the context message list has been assembled (client/agent resolution and
`buildContext` feed it `messages`).  `provider` abstracts one
`client.chat.completions.create` call; the second component of the result is
the list of message lists actually sent to the provider, one entry per
completion call issued.  The surrounding `catch` rethrows
`Failed to generate AI response: ...`, so a thrown tool error surfaces as that
orchestrator error. -/
def generateChatCompletion (env : MCPEnv)
    (provider : List OpenAIMessage → ChatCompletion)
    (messages : List OpenAIMessage) :
    Except String ChatCompletionResponse × List (List OpenAIMessage) :=
  let completion := provider messages
  let choice := completion.choice0
  let usage := completion.usage
  match choice.message.tool_calls with
  | some (tc0 :: tcRest) =>
    let toolCalls := tc0 :: tcRest
    let assistantTurn : OpenAIMessage :=
      .assistant (truthyStr choice.message.content) (some toolCalls)
    match runToolCalls env toolCalls with
    | .error e => (.error ("Failed to generate AI response: " ++ e), [messages])
    | .ok toolTurns =>
      let processedMessages := messages ++ assistantTurn :: toolTurns
      let finalCompletion := provider processedMessages
      let finalChoice := finalCompletion.choice0
      let finalUsage := finalCompletion.usage
      (.ok
        { message := { content := truthyStr finalChoice.message.content, toolCalls := none }
          finishReason := jsOrStr finalChoice.finish_reason "stop"
          model := finalCompletion.model
          tokens :=
            { prompt := jsOrNat (usage.map (·.prompt_tokens))
                (0 + jsOrNat (finalUsage.map (·.prompt_tokens)) 0)
              completion := jsOrNat (usage.map (·.completion_tokens))
                (0 + jsOrNat (finalUsage.map (·.completion_tokens)) 0)
              total := jsOrNat (usage.map (·.total_tokens)) 0 +
                jsOrNat (finalUsage.map (·.total_tokens)) 0 } },
       [messages, processedMessages])
  | _ =>
    (.ok
      { message := { content := truthyStr choice.message.content
                     toolCalls := choice.message.tool_calls.map (List.map cloneToolCall) }
        finishReason := jsOrStr choice.finish_reason "stop"
        model := completion.model
        tokens :=
          { prompt := jsOrNat (usage.map (·.prompt_tokens)) 0
            completion := jsOrNat (usage.map (·.completion_tokens)) 0
            total := jsOrNat (usage.map (·.total_tokens)) 0 } },
     [messages])

/-! ## Telegram channel adapter (TelegramChannelService) -/

/-- An attachment of a normalized/persisted message
(`Attachment` in src/src/schemas/message.schema.ts). -/
structure Attachment where
  url : String
  mimeType : Option String
  fileName : Option String
  fileSize : Option Nat
  width : Option Nat
  height : Option Nat
  duration : Option Nat
deriving DecidableEq

/-- Telegram `message.from`. -/
structure TgUser where
  id : Int
  username : Option String
  first_name : Option String
deriving DecidableEq

/-- Telegram `message.chat` (`chatType` embeds the source field `type`). -/
structure TgChat where
  id : Int
  chatType : String
deriving DecidableEq

/-- One entry of a Telegram `photo` array. -/
structure TgPhotoSize where
  file_id : String
  file_size : Option Nat
  width : Option Nat
  height : Option Nat
deriving DecidableEq

/-- Telegram `message.document`. -/
structure TgDocument where
  file_id : String
  mime_type : Option String
  file_name : Option String
  file_size : Option Nat
deriving DecidableEq

/-- Telegram `message.voice` / `message.audio`. -/
structure TgAudio where
  file_id : String
  mime_type : Option String
  file_size : Option Nat
  duration : Option Nat
deriving DecidableEq

/-- Telegram `message.video`. -/
structure TgVideo where
  file_id : String
  mime_type : Option String
  file_size : Option Nat
  width : Option Nat
  height : Option Nat
  duration : Option Nat
deriving DecidableEq

/-- A Telegram message payload (`fromUser` embeds the source field `from`). -/
structure TgMessage where
  message_id : Int
  chat : TgChat
  fromUser : TgUser
  date : Option Int
  edit_date : Option Int
  text : Option String
  caption : Option String
  photo : Option (List TgPhotoSize)
  document : Option TgDocument
  voice : Option TgAudio
  audio : Option TgAudio
  video : Option TgVideo
deriving DecidableEq

/-- A raw Telegram webhook event. -/
structure TgEvent where
  message : Option TgMessage
  edited_message : Option TgMessage
deriving DecidableEq

/-- The normalized message record returned by `receiveMessage`
(`msgType` embeds the source field `type`; `chatType`, `msgDate` and
`editDate` embed the `metadata` block). -/
structure NormalizedMessage where
  externalChannelId : String
  authorId : String
  authorName : Option String
  content : Option String
  attachments : Option (List Attachment)
  msgType : Option String
  externalMessageId : Option String
  chatType : String
  msgDate : Option Int
  editDate : Option Int
deriving DecidableEq

/-- The `TelegramChannelService.receiveMessage(channelConfig, event)`.  The
channel config is unused by the source on the receive path.  The `if` blocks
for text / photo / document / voice-audio / video fire independently and each
assignment overwrites the previous one; the base record is always built from
`chat`, `from` and `message_id`.  The catch block calls
`BaseChannelService.handleError` (channel-service.interface.ts), which logs
and throws a new error `<operation> failed: <message>`, so the no-message
throw surfaces as `receiveMessage failed: No message in event`. -/
def receiveMessage (event : TgEvent) : Except String NormalizedMessage :=
  match jsOrOpt event.message event.edited_message with
  | none => .error "receiveMessage failed: No message in event"
  | some m =>
    let r0 : NormalizedMessage :=
      { externalChannelId := toString m.chat.id
        authorId := toString m.fromUser.id
        authorName := some (jsOrStr m.fromUser.username (jsOrStr m.fromUser.first_name "User"))
        content := none
        attachments := none
        msgType := none
        externalMessageId := some (toString m.message_id)
        chatType := m.chat.chatType
        msgDate := m.date
        editDate := m.edit_date }
    let r1 := match truthyStr m.text with
      | some t => { r0 with content := some t, msgType := some "text" }
      | none => r0
    let r2 := match m.photo with
      | some (p0 :: ps) =>
        let photo := ps.getLastD p0
        { r1 with
          attachments := some [{ url := photo.file_id
                                 mimeType := some "image/jpeg"
                                 fileName := none
                                 fileSize := photo.file_size
                                 width := photo.width
                                 height := photo.height
                                 duration := none }]
          msgType := some "image"
          content := some (jsOrStr m.caption "") }
      | _ => r1
    let r3 := match m.document with
      | some d =>
        { r2 with
          attachments := some [{ url := d.file_id
                                 mimeType := some (jsOrStr d.mime_type "application/octet-stream")
                                 fileName := d.file_name
                                 fileSize := d.file_size
                                 width := none
                                 height := none
                                 duration := none }]
          msgType := some "document"
          content := some (jsOrStr m.caption "") }
      | none => r2
    let r4 := match jsOrOpt m.voice m.audio with
      | some a =>
        { r3 with
          attachments := some [{ url := a.file_id
                                 mimeType := some (jsOrStr a.mime_type "audio/ogg")
                                 fileName := none
                                 fileSize := a.file_size
                                 width := none
                                 height := none
                                 duration := a.duration }]
          msgType := some (if m.voice.isSome then "voice" else "audio") }
      | none => r3
    let r5 := match m.video with
      | some v =>
        { r4 with
          attachments := some [{ url := v.file_id
                                 mimeType := some (jsOrStr v.mime_type "video/mp4")
                                 fileName := none
                                 fileSize := v.file_size
                                 width := v.width
                                 height := v.height
                                 duration := v.duration }]
          msgType := some "video"
          content := some (jsOrStr m.caption "") }
      | none => r4
    .ok r5

/-- An outbound Telegram transport call made by `sendMessage`. -/
inductive SendAction where
  | sendText (recipientId content : String)
  | sendPhoto (recipientId url : String)
  | sendVideo (recipientId url : String)
  | sendDocument (recipientId url : String)
deriving DecidableEq

/-- JS `attachment.mimeType?.startsWith(lead)`. -/
def mimeStarts (mimeType : Option String) (lead : String) : Bool :=
  match mimeType with
  | some s => strLeadsWith s lead
  | none => false

/-- The `TelegramChannelService.sendMessage(channelConfig, recipientId, message)`.
`bot` abstracts the node-telegram-bot-api transport, returning the external
message id of a dispatched action; the second component of the result lists
the transport calls actually made.  The catch block calls
`BaseChannelService.handleError` (channel-service.interface.ts), which logs
and throws a new error `<operation> failed: <message>`, so the no-content
throw surfaces as `sendMessage failed: No content or attachments to send`. -/
def sendMessage (bot : SendAction → String) (recipientId : String)
    (content : Option String) (attachments : Option (List Attachment)) :
    Except String String × List SendAction :=
  match truthyStr content with
  | some c =>
    let act := SendAction.sendText recipientId c
    (.ok (bot act), [act])
  | none =>
    match attachments with
    | some (attachment :: _) =>
      let act :=
        if mimeStarts attachment.mimeType "image/" then
          SendAction.sendPhoto recipientId attachment.url
        else if mimeStarts attachment.mimeType "video/" then
          SendAction.sendVideo recipientId attachment.url
        else
          SendAction.sendDocument recipientId attachment.url
      (.ok (bot act), [act])
    | _ => (.error "sendMessage failed: No content or attachments to send", [])

/-! ## Conversation orchestrator
(src/src/modules/conversations/conversation-orchestrator.service.ts and the
enums of src/src/schemas) -/

/-- The `ConversationType` (source values `private` / `group` / `channel`). -/
inductive ConversationType where
  | priv
  | group
  | chan
deriving DecidableEq

/-- The `ConversationStatus` (source values `open` / `closed` / `archived` /
`paused`). -/
inductive ConversationStatus where
  | opened
  | closed
  | archived
  | paused
deriving DecidableEq

/-- The `ParticipantRole` (source values `user` / `agent` / `system` / `admin`). -/
inductive ParticipantRole where
  | user
  | agent
  | system
  | admin
deriving DecidableEq

/-- The `AuthorRole` of a persisted message (source values `user` / `agent` /
`system`). -/
inductive AuthorRole where
  | user
  | agent
  | system
deriving DecidableEq

/-- The `MessageType` from src/src/schemas/message.schema.ts. -/
inductive MessageType where
  | text
  | image
  | audio
  | voice
  | video
  | document
  | sticker
  | location
  | command
  | system
deriving DecidableEq

/-- A conversation participant (`joinedAt`/`leftAt` wall-clock stamps are not
modelled). -/
structure Participant where
  id : String
  role : ParticipantRole
  name : Option String
deriving DecidableEq

/-- A persisted `Conversation` document (the fields the orchestrator reads;
`cType` embeds the source field `type`). -/
structure Conversation where
  id : String
  channelId : String
  externalChannelId : String
  virtualAgentId : Option String
  cType : ConversationType
  status : ConversationStatus
  participants : List Participant
deriving DecidableEq

/-- A persisted `Message` document (the fields the orchestrator reads and
writes). -/
structure StoredMsg where
  id : String
  conversationId : String
  msgType : MessageType
  authorRole : AuthorRole
  authorId : String
  authorName : Option String
  content : Option String
  externalMessageId : Option String
deriving DecidableEq

/-- The channel document fields the orchestrator reads. -/
structure ChannelRec where
  id : String
  name : String
  defaultVirtualAgentId : Option String
  maxContextMessages : Option Nat
deriving DecidableEq

/-- One persistence / outbound side effect performed by the orchestrator. -/
inductive Op where
  | createConversation (c : Conversation)
  | updateParticipants (conversationId : String) (ps : List Participant)
  | createMessage (m : StoredMsg)
  | completionCall (conversationId : String)
  | channelSend (recipientId : String) (content : String)
  | updateMessage (messageId : String) (externalMessageId : String)
deriving DecidableEq

/-- The persistent store the operation trace acts on. -/
structure Store where
  conversations : List Conversation
  messages : List StoredMsg
deriving DecidableEq

/-- Interpretation of one trace operation on the store.  No operation removes
a document: creates append, updates rewrite in place, provider calls and
channel sends do not touch the store. -/
def applyOp (s : Store) : Op → Store
  | .createConversation c => { s with conversations := s.conversations ++ [c] }
  | .updateParticipants cid ps =>
      { s with conversations :=
          s.conversations.map fun c =>
            if c.id = cid then { c with participants := ps } else c }
  | .createMessage m => { s with messages := s.messages ++ [m] }
  | .updateMessage mid ext =>
      { s with messages :=
          s.messages.map fun m =>
            if m.id = mid then { m with externalMessageId := some ext } else m }
  | .completionCall _ => s
  | .channelSend _ _ => s

def applyOps (s : Store) (ops : List Op) : Store :=
  ops.foldl applyOp s

/-- The `op` is an AI-provider completion call. -/
def Op.isCompletionOp : Op → Bool
  | .completionCall _ => true
  | _ => false

/-- The `op` is an outbound channel dispatch. -/
def Op.isSendOp : Op → Bool
  | .channelSend _ _ => true
  | _ => false

/-- The `op` persists an agent-authored reply message. -/
def Op.isAgentMessageOp : Op → Bool
  | .createMessage m => m.authorRole = AuthorRole.agent
  | _ => false

/-- Environment of one `generateAndSendResponse` run: the outcome of each
external call it makes, in program order. -/
structure GasrEnv where
  /-- The `messagesService.findByConversation(tenantId, conversationId, 1)`. -/
  lastMessages : List StoredMsg
  /-- The `virtualAgentsService.findOne` + `aiProviderFactory.getProvider`
  (either may throw). -/
  providerResolved : Except String Unit
  /-- The `aiProvider.generateChatCompletion(...)` outcome. -/
  completion : Except String ChatCompletionResponse
  /-- The id the store assigns to the created reply message. -/
  newMessageId : String
  /-- The `channelService.sendMessage(...)` outcome. -/
  sendResult : Except String String

/-- The reply `Message` persisted by `generateAndSendResponse`
(`messagesService.create(tenantId, {...})` with `authorRole: AGENT` and
`content` set from the response text, defaulting to the empty string). -/
def buildAgentMessage (newMessageId conversationId virtualAgentId : String)
    (aiResponse : ChatCompletionResponse) : StoredMsg :=
  { id := newMessageId
    conversationId := conversationId
    msgType := MessageType.text
    authorRole := AuthorRole.agent
    authorId := virtualAgentId
    authorName := none
    content := some (jsOrStr aiResponse.message.content "")
    externalMessageId := none }

/-- The `generateAndSendResponse(tenantId, conversationId, virtualAgentId,
channel, recipientId)` from conversation-orchestrator.service.ts, as outcome
plus side-effect trace.  The surrounding `catch` logs and rethrows the same
error, so each failing external call surfaces its own error unchanged. -/
def generateAndSendResponse (env : GasrEnv)
    (conversationId virtualAgentId recipientId : String) :
    Except String Unit × List Op :=
  match env.lastMessages.head? with
  | none => (.ok (), [])
  | some lastUserMessage =>
    match truthyStr lastUserMessage.content with
    | none => (.ok (), [])
    | some _ =>
      match env.providerResolved with
      | .error e => (.error e, [])
      | .ok () =>
        match env.completion with
        | .error e => (.error e, [Op.completionCall conversationId])
        | .ok aiResponse =>
          let agentMessage :=
            buildAgentMessage env.newMessageId conversationId virtualAgentId aiResponse
          let ops := [Op.completionCall conversationId, Op.createMessage agentMessage]
          match env.sendResult with
          | .error e => (.error e, ops)
          | .ok externalMessageId =>
            (.ok (),
             ops ++ [Op.channelSend recipientId (jsOrStr aiResponse.message.content ""),
                     Op.updateMessage env.newMessageId externalMessageId])

/-- The `mapMessageType` from conversation-orchestrator.service.ts (after
lower-casing; unknown strings fall back to `text`). -/
def mapMessageType (t : String) : MessageType :=
  let s := ⟨t.toList.map Char.toLower⟩
  if s = "text" then .text
  else if s = "image" then .image
  else if s = "audio" then .audio
  else if s = "voice" then .voice
  else if s = "video" then .video
  else if s = "document" then .document
  else if s = "sticker" then .sticker
  else if s = "location" then .location
  else if s = "command" then .command
  else if s = "system" then .system
  else .text

/-- The `getConversationType` from conversation-orchestrator.service.ts. -/
def getConversationType (chatType : Option String) : ConversationType :=
  match chatType with
  | none => .priv
  | some t =>
    let s : String := ⟨t.toList.map Char.toLower⟩
    if s = "private" then .priv
    else if s = "group" then .group
    else if s = "supergroup" then .group
    else if s = "channel" then .chan
    else .priv

/-- The `addParticipantIfNew(tenantId, conversation, parsedMessage)`: appends the
sender to a group conversation when unseen.  Its `catch` swallows update
errors, so the operation never fails. -/
def addParticipantIfNew (conversation : Conversation)
    (parsedMessage : NormalizedMessage) : List Op :=
  let participantExists :=
    conversation.participants.any (fun p => p.id == parsedMessage.authorId)
  if !participantExists && conversation.cType == ConversationType.group then
    [Op.updateParticipants conversation.id
      (conversation.participants ++
        [{ id := parsedMessage.authorId
           role := ParticipantRole.user
           name := parsedMessage.authorName }])]
  else []

/-- The group-mention gate of `handleIncomingMessage`:
`parsedMessage.content?.includes(`@${channel.name}`)` with JS optional
chaining (`undefined` content is falsy). -/
def mentionsToken (content : Option String) (channelName : String) : Bool :=
  match content with
  | some c => strIncludes c ("@" ++ channelName)
  | none => false

/-- Environment of one `handleIncomingMessage` run. -/
structure HimEnv where
  /-- The `conversationsService.findByExternalId(...)` result. -/
  existing : Option Conversation
  /-- The `getDefaultVirtualAgentForChannel(...)` result (first active agent of
  the tenant, if any). -/
  fallbackAgentId : Option String
  /-- The id the store assigns to a created conversation. -/
  newConversationId : String
  /-- The id the store assigns to the created user message. -/
  userMessageId : String
  /-- Environment for the nested `generateAndSendResponse` run. -/
  gasr : GasrEnv

/-- The inbound user `Message` persisted by step 4 of
`handleIncomingMessage` (`messagesService.create(tenantId, {...})`). -/
def buildUserMessage (userMessageId conversationId : String)
    (parsedMessage : NormalizedMessage) : StoredMsg :=
  { id := userMessageId
    conversationId := conversationId
    msgType := mapMessageType (jsOrStr parsedMessage.msgType "text")
    authorRole := AuthorRole.user
    authorId := parsedMessage.authorId
    authorName := parsedMessage.authorName
    content := parsedMessage.content
    externalMessageId := parsedMessage.externalMessageId }

/-- Steps 3-5 of `handleIncomingMessage(tenantId, channelId, incomingEvent,
type)` from conversation-orchestrator.service.ts, starting after channel
resolution and `receiveMessage` have produced `channel` and `parsedMessage`
(steps 1-2).  Returns the outcome and the side-effect trace. -/
def handleIncomingMessage (env : HimEnv) (channel : ChannelRec)
    (parsedMessage : NormalizedMessage) : Except String Unit × List Op :=
  let found :=
    match env.existing with
    | none =>
      let virtualAgentId := jsOrOpt channel.defaultVirtualAgentId env.fallbackAgentId
      let conversation : Conversation :=
        { id := env.newConversationId
          channelId := channel.id
          externalChannelId := parsedMessage.externalChannelId
          virtualAgentId := virtualAgentId
          cType := getConversationType (some parsedMessage.chatType)
          status := ConversationStatus.opened
          participants := [{ id := parsedMessage.authorId
                             role := ParticipantRole.user
                             name := parsedMessage.authorName }] }
      (conversation, [Op.createConversation conversation])
    | some conversation => (conversation, addParticipantIfNew conversation parsedMessage)
  let conversation := found.1
  let userMessage := buildUserMessage env.userMessageId conversation.id parsedMessage
  let ops := found.2 ++ [Op.createMessage userMessage]
  match conversation.status, conversation.virtualAgentId with
  | ConversationStatus.opened, some virtualAgentId =>
    if conversation.cType = ConversationType.group &&
        !mentionsToken parsedMessage.content channel.name then
      (.ok (), ops)
    else
      let gres := generateAndSendResponse env.gasr conversation.id virtualAgentId
        parsedMessage.externalChannelId
      (gres.1, ops ++ gres.2)
  | _, _ => (.ok (), ops)

/-! ## Derived definitions used by the statements -/

/-- A trace operation that is neither a provider completion call, nor an
outbound channel dispatch, nor the persistence of an agent reply. -/
def benignOp (op : Op) : Bool :=
  !op.isCompletionOp && !op.isSendOp && !op.isAgentMessageOp

/-- The successful result of one tool call (used to describe the tool turns
produced by a run of the agentic loop in which every tool call succeeded). -/
def toolResultOf (env : MCPEnv) (tc : ToolCallRec) : Json :=
  match handleToolCall env tc.function.name tc.function.arguments with
  | .ok r => r
  | .error _ => .null

/-- The response built by `generateChatCompletion` from the SECOND provider
call (the re-invocation after tool execution): content/finish
reason/model come from that second completion, `toolCalls` is `undefined`,
and the token counts combine both calls with the JS `||`
precedence. -/
def secondCallResponse (provider : List OpenAIMessage → ChatCompletion)
    (firstUsage : Option CompletionUsage)
    (processedMessages : List OpenAIMessage) : ChatCompletionResponse :=
  let finalCompletion := provider processedMessages
  let finalChoice := finalCompletion.choice0
  let finalUsage := finalCompletion.usage
  { message := { content := truthyStr finalChoice.message.content, toolCalls := none }
    finishReason := jsOrStr finalChoice.finish_reason "stop"
    model := finalCompletion.model
    tokens :=
      { prompt := jsOrNat (firstUsage.map (·.prompt_tokens))
          (0 + jsOrNat (finalUsage.map (·.prompt_tokens)) 0)
        completion := jsOrNat (firstUsage.map (·.completion_tokens))
          (0 + jsOrNat (finalUsage.map (·.completion_tokens)) 0)
        total := jsOrNat (firstUsage.map (·.total_tokens)) 0 +
          jsOrNat (finalUsage.map (·.total_tokens)) 0 } }

/-- The single transport action `sendMessage` chooses for the first
attachment when no text content is supplied, keyed on the mime-type class. -/
def telegramAttachmentAction (recipientId : String) (a : Attachment) : SendAction :=
  if mimeStarts a.mimeType "image/" then .sendPhoto recipientId a.url
  else if mimeStarts a.mimeType "video/" then .sendVideo recipientId a.url
  else .sendDocument recipientId a.url


/-- Concrete inbound user message used to exercise `generateAndSendResponse`. -/
def gasrUserMsgFx : StoredMsg :=
  { id := "u1", conversationId := "c1", msgType := .text, authorRole := .user,
    authorId := "42", authorName := some "ann",
    content := some "hello", externalMessageId := some "7" }

/-- Concrete provider response used to exercise `generateAndSendResponse`. -/
def gasrRespFx : ChatCompletionResponse :=
  { message := { content := some "hi there", toolCalls := none }
    finishReason := "stop", model := "gpt-test"
    tokens := { prompt := 1, completion := 2, total := 3 } }

/-- Concrete environment in which the reply is generated and persisted but
the channel dispatch fails. -/
def gasrDispatchFailEnvFx : GasrEnv :=
  { lastMessages := [gasrUserMsgFx]
    providerResolved := .ok ()
    completion := .ok gasrRespFx
    newMessageId := "am1"
    sendResult := .error "telegram down" }


/-- Concrete normalized inbound message used to exercise
`handleIncomingMessage`. -/
def himParsedFx : NormalizedMessage :=
  { externalChannelId := "chat9", authorId := "42", authorName := some "ann",
    content := some "hello there", attachments := none, msgType := some "text",
    externalMessageId := some "77", chatType := "private",
    msgDate := none, editDate := none }

/-- Concrete existing conversation that is `paused`. -/
def himPausedConvFx : Conversation :=
  { id := "conv1", channelId := "ch1", externalChannelId := "chat9",
    virtualAgentId := some "agent1", cType := .priv,
    status := .paused,
    participants := [{ id := "42", role := .user, name := some "ann" }] }

/-- Concrete existing `open` group conversation with an assigned agent. -/
def himGroupConvFx : Conversation :=
  { id := "conv2", channelId := "ch1", externalChannelId := "chat9",
    virtualAgentId := some "agent1", cType := .group,
    status := .opened,
    participants := [{ id := "42", role := .user, name := some "ann" }] }

/-- Concrete handler environment around an existing conversation. -/
def himEnvFx (conversation : Conversation) : HimEnv :=
  { existing := some conversation
    fallbackAgentId := none
    newConversationId := "convNew"
    userMessageId := "u9"
    gasr := gasrDispatchFailEnvFx }

/-- Concrete channel record named `support`. -/
def himChannelFx : ChannelRec :=
  { id := "ch1", name := "support", defaultVirtualAgentId := none,
    maxContextMessages := none }


/-- A Telegram message carrying none of the recognized payload shapes
(e.g. a sticker-only message: no text, photo, document, voice, audio or
video field). -/
def stickerOnlyMessageFx : TgMessage :=
  { message_id := 3, chat := { id := 5, chatType := "private" },
    fromUser := { id := 7, username := some "alice", first_name := none },
    date := none, edit_date := none, text := none, caption := none,
    photo := none, document := none, voice := none, audio := none,
    video := none }

/-- The webhook event wrapping `stickerOnlyMessageFx`. -/
def stickerOnlyEventFx : TgEvent :=
  { message := some stickerOnlyMessageFx, edited_message := none }

/-- A Telegram message whose only payload field is an empty (JS-falsy) text. -/
def emptyTextMessageFx : TgMessage :=
  { message_id := 12, chat := { id := 11, chatType := "group" },
    fromUser := { id := 13, username := none, first_name := some "bob" },
    date := none, edit_date := none, text := some "", caption := none,
    photo := some [], document := none, voice := none, audio := none,
    video := none }


/-- Tool world in which every MCP tool execution throws `boom`. -/
def toolFailEnvFx : MCPEnv :=
  { parseJson := fun _ => some .null
    callTool := fun _ _ _ => .error "boom" }

/-- A provider that always requests one MCP tool call. -/
def alwaysToolProviderFx : List OpenAIMessage → ChatCompletion := fun _ =>
  { choice0 :=
      { message :=
          { content := none
            tool_calls := some [{ id := "1", tcType := "function",
                                  function := { name := "mcp_srv_tool",
                                                arguments := "null" } }] }
        finish_reason := some "tool_calls" }
    model := "m1"
    usage := none }

/-- Tool world in which every MCP tool execution succeeds with `"ok"`. -/
def happyToolEnvFx : MCPEnv :=
  { parseJson := fun _ => some .null
    callTool := fun _ _ _ => .ok (.str "ok") }

/-- The single tool call requested by `twoRoundProviderFx`. -/
def happyTcFx : ToolCallRec :=
  { id := "1", tcType := "function",
    function := { name := "mcp_srv_echo", arguments := "null" } }

/-- A provider that requests one tool call on the first (one-message) call
and answers with text on the extended second call. -/
def twoRoundProviderFx : List OpenAIMessage → ChatCompletion := fun msgs =>
  if msgs.length == 1 then
    { choice0 := { message := { content := some "calling tool",
                                tool_calls := some [happyTcFx] }
                   finish_reason := some "tool_calls" }
      model := "m1", usage := none }
  else
    { choice0 := { message := { content := some "final answer",
                                tool_calls := none }
                   finish_reason := some "stop" }
      model := "m1", usage := none }

/-! ## Theorems -/

lemma addParticipantIfNew_all_benign (conversation : Conversation)
    (parsedMessage : NormalizedMessage) :
    (addParticipantIfNew conversation parsedMessage).all benignOp = true := by
  unfold addParticipantIfNew
  dsimp only
  split <;>
    simp [benignOp, Op.isCompletionOp, Op.isSendOp, Op.isAgentMessageOp]

lemma runToolCalls_ok_map (env : MCPEnv) (tcs : List ToolCallRec)
    (ts : List OpenAIMessage) (h : runToolCalls env tcs = .ok ts) :
    ts = tcs.map (fun tc =>
      OpenAIMessage.tool tc.id tc.function.name (stringify (toolResultOf env tc))) := by
  induction tcs generalizing ts with
  | nil =>
    simp only [runToolCalls] at h
    cases h
    simp
  | cons tc rest ih =>
    simp only [runToolCalls] at h
    cases hh : handleToolCall env tc.function.name tc.function.arguments with
    | error e => rw [hh] at h; cases h
    | ok r =>
      rw [hh] at h
      cases hr : runToolCalls env rest with
      | error e => rw [hr] at h; cases h
      | ok ms =>
        rw [hr] at h
        cases h
        simp [toolResultOf, hh, ih ms hr]

/-- C7: when the conversation has no most-recent message, or that message has
no (truthy) text content, `generateAndSendResponse` returns without error,
issues no completion call, persists nothing and dispatches nothing: the
side-effect trace is empty and the outcome is `ok`. -/
theorem generateAndSendResponse_no_text_silent_noop
    (env : GasrEnv) (conversationId virtualAgentId recipientId : String)
    (h : env.lastMessages.head? = none ∨
      ∃ m, env.lastMessages.head? = some m ∧ truthyStr m.content = none) :
    generateAndSendResponse env conversationId virtualAgentId recipientId =
      (Except.ok (), ([] : List Op)) := by
  unfold generateAndSendResponse
  rcases h with h | ⟨m, hm, hc⟩
  · rw [h]
  · rw [hm]
    dsimp only
    rw [hc]

theorem generateAndSendResponse_no_text_silent_noop_witness :
    generateAndSendResponse
      { lastMessages := []
        providerResolved := .ok ()
        completion := .error "unused"
        newMessageId := "m1"
        sendResult := .error "unused" } "c1" "a1" "r1" =
      (Except.ok (), ([] : List Op)) :=
  generateAndSendResponse_no_text_silent_noop _ _ _ _ (Or.inl rfl)

/-- C8: (1) if the reply was generated and persisted and the channel dispatch
then fails, `generateAndSendResponse` surfaces exactly the dispatch error,
and the trace it leaves keeps the persisted reply in the store (appended,
never removed or rolled back) with no external message id attached;
(2) by contrast, a generation failure surfaces the provider error with no
reply persisted at all, so the two failure modes are distinct. -/
theorem generateAndSendResponse_dispatch_failure_keeps_reply :
    (∀ (env : GasrEnv) (conversationId virtualAgentId recipientId : String)
       (m : StoredMsg) (c e : String) (resp : ChatCompletionResponse),
      env.lastMessages.head? = some m →
      truthyStr m.content = some c →
      env.providerResolved = .ok () →
      env.completion = .ok resp →
      env.sendResult = .error e →
      generateAndSendResponse env conversationId virtualAgentId recipientId =
        (.error e,
         [Op.completionCall conversationId,
          Op.createMessage
            (buildAgentMessage env.newMessageId conversationId virtualAgentId resp)]) ∧
      (∀ s : Store,
        (applyOps s
          (generateAndSendResponse env conversationId virtualAgentId recipientId).2).messages =
          s.messages ++
            [buildAgentMessage env.newMessageId conversationId virtualAgentId resp]) ∧
      (buildAgentMessage env.newMessageId conversationId virtualAgentId
        resp).externalMessageId = none) ∧
    (∀ (env : GasrEnv) (conversationId virtualAgentId recipientId : String)
       (m : StoredMsg) (c e : String),
      env.lastMessages.head? = some m →
      truthyStr m.content = some c →
      env.providerResolved = .ok () →
      env.completion = .error e →
      generateAndSendResponse env conversationId virtualAgentId recipientId =
        (.error e, [Op.completionCall conversationId])) := by
  constructor
  · intro env conversationId virtualAgentId recipientId m c e resp hm hc hp hcomp hsend
    have hrun : generateAndSendResponse env conversationId virtualAgentId recipientId =
        (.error e,
         [Op.completionCall conversationId,
          Op.createMessage
            (buildAgentMessage env.newMessageId conversationId virtualAgentId resp)]) := by
      unfold generateAndSendResponse
      rw [hm]; dsimp only
      rw [hc]; dsimp only
      rw [hp]; dsimp only
      rw [hcomp]; dsimp only
      rw [hsend]
    refine ⟨hrun, ?_, rfl⟩
    intro s
    rw [hrun]
    simp [applyOps, applyOp]
  · intro env conversationId virtualAgentId recipientId m c e hm hc hp hcomp
    unfold generateAndSendResponse
    rw [hm]; dsimp only
    rw [hc]; dsimp only
    rw [hp]; dsimp only
    rw [hcomp]


theorem generateAndSendResponse_dispatch_failure_keeps_reply_witness :
    (generateAndSendResponse gasrDispatchFailEnvFx "c1" "a1" "r1" =
      (.error "telegram down",
       [Op.completionCall "c1",
        Op.createMessage (buildAgentMessage "am1" "c1" "a1" gasrRespFx)])) ∧
    (applyOps { conversations := [], messages := [] }
        (generateAndSendResponse gasrDispatchFailEnvFx "c1" "a1" "r1").2).messages =
      [] ++ [buildAgentMessage "am1" "c1" "a1" gasrRespFx] :=
  have h := generateAndSendResponse_dispatch_failure_keeps_reply.1
    gasrDispatchFailEnvFx "c1" "a1" "r1" gasrUserMsgFx "hello" "telegram down"
    gasrRespFx rfl rfl rfl rfl rfl
  ⟨h.1, h.2.1 { conversations := [], messages := [] }⟩

/-- C6: an inbound message on an existing conversation that is not `open`, or
that has no assigned agent, persists the user message but triggers no
completion call, no outbound send and no agent reply; the handler returns
`ok`. -/
theorem handleIncomingMessage_not_open_or_agentless_skips
    (env : HimEnv) (channel : ChannelRec) (parsedMessage : NormalizedMessage)
    (conversation : Conversation)
    (hex : env.existing = some conversation)
    (h : conversation.status ≠ ConversationStatus.opened ∨
      conversation.virtualAgentId = none) :
    (handleIncomingMessage env channel parsedMessage).1 = .ok () ∧
    Op.createMessage (buildUserMessage env.userMessageId conversation.id parsedMessage) ∈
      (handleIncomingMessage env channel parsedMessage).2 ∧
    (handleIncomingMessage env channel parsedMessage).2.all benignOp = true := by
  have hmain : handleIncomingMessage env channel parsedMessage =
      (.ok (), addParticipantIfNew conversation parsedMessage ++
        [Op.createMessage
          (buildUserMessage env.userMessageId conversation.id parsedMessage)]) := by
    unfold handleIncomingMessage
    rw [hex]
    dsimp only
    rcases h with hst | hag
    · cases hs : conversation.status
      case opened => exact absurd hs hst
      all_goals rfl
    · rw [hag]
      cases hs : conversation.status <;> rfl
  refine ⟨by rw [hmain], by rw [hmain]; simp, ?_⟩
  rw [hmain]
  simp only [List.all_append]
  rw [addParticipantIfNew_all_benign]
  simp [benignOp, Op.isCompletionOp, Op.isSendOp, Op.isAgentMessageOp, buildUserMessage]

theorem handleIncomingMessage_not_open_or_agentless_skips_witness :
    (handleIncomingMessage (himEnvFx himPausedConvFx) himChannelFx himParsedFx).1 =
      .ok () ∧
    Op.createMessage (buildUserMessage "u9" "conv1" himParsedFx) ∈
      (handleIncomingMessage (himEnvFx himPausedConvFx) himChannelFx himParsedFx).2 ∧
    (handleIncomingMessage (himEnvFx himPausedConvFx) himChannelFx
      himParsedFx).2.all benignOp = true :=
  handleIncomingMessage_not_open_or_agentless_skips
    (himEnvFx himPausedConvFx) himChannelFx himParsedFx himPausedConvFx rfl
    (Or.inl (by decide))

/-- C4: an inbound message on an existing group conversation whose text does
not contain the `@<channelName>` token persists the user message but never
issues a completion call, never dispatches a reply and never persists an
agent message; the handler returns `ok` silently. -/
theorem handleIncomingMessage_group_unmentioned_is_silent
    (env : HimEnv) (channel : ChannelRec) (parsedMessage : NormalizedMessage)
    (conversation : Conversation)
    (hex : env.existing = some conversation)
    (hgroup : conversation.cType = ConversationType.group)
    (hment : mentionsToken parsedMessage.content channel.name = false) :
    (handleIncomingMessage env channel parsedMessage).1 = .ok () ∧
    Op.createMessage (buildUserMessage env.userMessageId conversation.id parsedMessage) ∈
      (handleIncomingMessage env channel parsedMessage).2 ∧
    (handleIncomingMessage env channel parsedMessage).2.all benignOp = true := by
  have hmain : handleIncomingMessage env channel parsedMessage =
      (.ok (), addParticipantIfNew conversation parsedMessage ++
        [Op.createMessage
          (buildUserMessage env.userMessageId conversation.id parsedMessage)]) := by
    unfold handleIncomingMessage
    rw [hex]
    dsimp only
    cases hs : conversation.status
    case opened =>
      cases ha : conversation.virtualAgentId
      case none => rfl
      case some virtualAgentId =>
        dsimp only
        rw [hgroup, hment]
        rfl
    all_goals rfl
  refine ⟨by rw [hmain], by rw [hmain]; simp, ?_⟩
  rw [hmain]
  simp only [List.all_append]
  rw [addParticipantIfNew_all_benign]
  simp [benignOp, Op.isCompletionOp, Op.isSendOp, Op.isAgentMessageOp, buildUserMessage]

theorem handleIncomingMessage_group_unmentioned_is_silent_witness :
    (handleIncomingMessage (himEnvFx himGroupConvFx) himChannelFx himParsedFx).1 =
      .ok () ∧
    Op.createMessage (buildUserMessage "u9" "conv2" himParsedFx) ∈
      (handleIncomingMessage (himEnvFx himGroupConvFx) himChannelFx himParsedFx).2 ∧
    (handleIncomingMessage (himEnvFx himGroupConvFx) himChannelFx
      himParsedFx).2.all benignOp = true :=
  handleIncomingMessage_group_unmentioned_is_silent
    (himEnvFx himGroupConvFx) himChannelFx himParsedFx himGroupConvFx rfl rfl
    (by decide)

/-- C10: (1) with non-empty text content, `sendMessage` dispatches exactly
one transport call — the text send — and returns its external id; any
supplied attachments are never dispatched.  (2) With no truthy text,
exactly the first attachment is dispatched, as photo / video / generic
document according to its mime-type class, and the remaining attachments
are never dispatched. -/
theorem sendMessage_text_wins_else_first_attachment :
    (∀ (bot : SendAction → String) (recipientId c : String)
       (attachments : Option (List Attachment)),
      c ≠ "" →
      sendMessage bot recipientId (some c) attachments =
        (.ok (bot (.sendText recipientId c)), [.sendText recipientId c])) ∧
    (∀ (bot : SendAction → String) (recipientId : String)
       (content : Option String) (a : Attachment) (rest : List Attachment),
      truthyStr content = none →
      sendMessage bot recipientId content (some (a :: rest)) =
        (.ok (bot (telegramAttachmentAction recipientId a)),
         [telegramAttachmentAction recipientId a])) := by
  constructor
  · intro bot recipientId c attachments hc
    unfold sendMessage
    simp [truthyStr, hc]
  · intro bot recipientId content a rest hc
    unfold sendMessage
    rw [hc]
    dsimp only
    unfold telegramAttachmentAction
    split
    · rfl
    · split <;> rfl

theorem sendMessage_text_wins_else_first_attachment_witness :
    (sendMessage (fun _ => "900") "chat9" (some "hola")
        (some [{ url := "f1", mimeType := some "image/png", fileName := none,
                 fileSize := none, width := none, height := none, duration := none }]) =
      (.ok "900", [.sendText "chat9" "hola"])) ∧
    (sendMessage (fun _ => "901") "chat9" none
        (some [{ url := "f1", mimeType := some "image/png", fileName := none,
                 fileSize := none, width := none, height := none, duration := none },
               { url := "f2", mimeType := some "video/mp4", fileName := none,
                 fileSize := none, width := none, height := none, duration := none }]) =
      (.ok "901", [.sendPhoto "chat9" "f1"])) :=
  ⟨sendMessage_text_wins_else_first_attachment.1 (fun _ => "900") "chat9" "hola" _
      (by decide),
   sendMessage_text_wins_else_first_attachment.2 (fun _ => "901") "chat9" none _ _ rfl⟩

/-- C3 counterexample: a raw event whose payload shape is none of the
recognized ones (text, photo, document, voice/audio, video) does NOT make
`receiveMessage` fail: it returns a normalized message whose content, type
and attachments are all absent — the payload is silently dropped. -/
theorem receiveMessage_sticker_event_returns_ok :
    receiveMessage stickerOnlyEventFx =
      .ok { externalChannelId := "5", authorId := "7",
            authorName := some "alice", content := none, attachments := none,
            msgType := none, externalMessageId := some "3",
            chatType := "private", msgDate := none, editDate := none } := rfl

/-- C3 (amended): an event carrying a message that matches none of the
recognized payload shapes does not fail: it is returned as a normalized
message with no content, no type and no attachments — the payload is
silently dropped. -/
theorem receiveMessage_unrecognized_payload_not_error
    (event : TgEvent) (m : TgMessage)
    (hm : jsOrOpt event.message event.edited_message = some m)
    (htext : truthyStr m.text = none)
    (hphoto : m.photo = none ∨ m.photo = some [])
    (hdoc : m.document = none) (hvoice : m.voice = none)
    (haudio : m.audio = none) (hvideo : m.video = none) :
    receiveMessage event =
      .ok { externalChannelId := toString m.chat.id
            authorId := toString m.fromUser.id
            authorName := some (jsOrStr m.fromUser.username
              (jsOrStr m.fromUser.first_name "User"))
            content := none
            attachments := none
            msgType := none
            externalMessageId := some (toString m.message_id)
            chatType := m.chat.chatType
            msgDate := m.date
            editDate := m.edit_date } := by
  unfold receiveMessage
  rw [hm]
  dsimp only
  rw [htext]
  dsimp only
  rcases hphoto with h | h <;> rw [h] <;> dsimp only <;>
    rw [hdoc] <;> dsimp only <;>
    rw [show jsOrOpt m.voice m.audio = none by rw [hvoice, haudio]; rfl] <;>
    dsimp only <;> rw [hvideo]

theorem receiveMessage_unrecognized_payload_not_error_witness :
    receiveMessage { message := some emptyTextMessageFx, edited_message := none } =
      .ok { externalChannelId := "11", authorId := "13",
            authorName := some "bob", content := none, attachments := none,
            msgType := none, externalMessageId := some "12",
            chatType := "group", msgDate := none, editDate := none } :=
  receiveMessage_unrecognized_payload_not_error _ emptyTextMessageFx rfl rfl
    (Or.inr rfl) rfl rfl rfl rfl

/-- C1 counterexample: with a provider that requests one tool call and a tool
whose execution throws, the orchestration issues only ONE completion call and
returns an error — no second response is returned as final, contradicting the
claim that the second response is always returned after tool calls. -/
theorem generateChatCompletion_toolFailure_single_call :
    generateChatCompletion toolFailEnvFx alwaysToolProviderFx [] =
      (.error "Failed to generate AI response: boom", [[]]) := rfl

/-- C1 (amended): the agentic loop is bounded — `generateChatCompletion`
always issues at most 2 completion calls; and when the first completion
returns one or more tool calls AND every tool execution succeeds, it issues
exactly 2 calls — the second on the context extended with the assistant
tool-call turn followed by one tool-result turn per call in array order —
and returns the second response as final (whatever the number of tool
calls).  A throwing tool execution instead aborts the generation with an
error after the single initial call. -/
theorem generateChatCompletion_bounded_two_calls :
    (∀ (env : MCPEnv) (provider : List OpenAIMessage → ChatCompletion)
       (messages : List OpenAIMessage),
      (generateChatCompletion env provider messages).2.length ≤ 2) ∧
    (∀ (env : MCPEnv) (provider : List OpenAIMessage → ChatCompletion)
       (messages : List OpenAIMessage) (tc0 : ToolCallRec)
       (tcRest : List ToolCallRec) (toolTurns : List OpenAIMessage),
      (provider messages).choice0.message.tool_calls = some (tc0 :: tcRest) →
      runToolCalls env (tc0 :: tcRest) = .ok toolTurns →
      generateChatCompletion env provider messages =
        (.ok (secondCallResponse provider (provider messages).usage
            (messages ++ OpenAIMessage.assistant
              (truthyStr (provider messages).choice0.message.content)
              (some (tc0 :: tcRest)) :: toolTurns)),
         [messages,
          messages ++ OpenAIMessage.assistant
            (truthyStr (provider messages).choice0.message.content)
            (some (tc0 :: tcRest)) :: toolTurns]) ∧
      toolTurns = (tc0 :: tcRest).map (fun tc =>
        OpenAIMessage.tool tc.id tc.function.name (stringify (toolResultOf env tc)))) := by
  constructor
  · intro env provider messages
    unfold generateChatCompletion
    dsimp only
    cases h : (provider messages).choice0.message.tool_calls with
    | none => simp
    | some l =>
      cases l with
      | nil => simp
      | cons tc rest =>
        dsimp only
        cases hr : runToolCalls env (tc :: rest) with
        | error e => simp
        | ok ts => simp
  · intro env provider messages tc0 tcRest toolTurns h1 h2
    refine ⟨?_, runToolCalls_ok_map env _ _ h2⟩
    unfold generateChatCompletion
    dsimp only
    rw [h1]
    dsimp only
    rw [h2]
    rfl

theorem generateChatCompletion_bounded_two_calls_witness :
    generateChatCompletion happyToolEnvFx twoRoundProviderFx
        [OpenAIMessage.user "hi"] =
      (.ok (secondCallResponse twoRoundProviderFx
          (twoRoundProviderFx [OpenAIMessage.user "hi"]).usage
          ([OpenAIMessage.user "hi"] ++ OpenAIMessage.assistant
            (truthyStr (twoRoundProviderFx
              [OpenAIMessage.user "hi"]).choice0.message.content)
            (some (happyTcFx :: [])) ::
              [OpenAIMessage.tool "1" "mcp_srv_echo" (stringify (.str "ok"))])),
       [[OpenAIMessage.user "hi"],
        [OpenAIMessage.user "hi"] ++ OpenAIMessage.assistant
          (truthyStr (twoRoundProviderFx
            [OpenAIMessage.user "hi"]).choice0.message.content)
          (some (happyTcFx :: [])) ::
            [OpenAIMessage.tool "1" "mcp_srv_echo" (stringify (.str "ok"))]]) ∧
    [OpenAIMessage.tool "1" "mcp_srv_echo" (stringify (.str "ok"))] =
      (happyTcFx :: []).map (fun tc =>
        OpenAIMessage.tool tc.id tc.function.name
          (stringify (toolResultOf happyToolEnvFx tc))) :=
  generateChatCompletion_bounded_two_calls.2 happyToolEnvFx twoRoundProviderFx
    [OpenAIMessage.user "hi"] happyTcFx []
    [OpenAIMessage.tool "1" "mcp_srv_echo" (stringify (.str "ok"))] rfl rfl

